import Mathlib

/-!
Verification of `main3.py` — a pygame/PyOpenGL black-hole demo with a
screen-space gravitational-lensing postprocess shader.

The development shallowly embeds the program's logic:
* the postprocess fragment shader `POST_FS` as a pure function over `ℚ`
  (exact rational arithmetic standing for GLSL float arithmetic; the only
  irrational quantity, `d = length(p)`, is passed as an explicit argument
  standing for the computed length of `p`, so theorems quantify over it);
* the event-handling portion of `main` as a step function on an explicit
  `MainState` record holding every mutable global and resource handle;
* `set_camera` over `ℝ` with real trigonometric functions;
* `compile_shader` / `link_program` over an abstract GL driver interface,
  returning `Except` where the Python raises `RuntimeError`;
* the per-frame call sequence of the main loop as a trace of operations
  tagged with pipeline phases.
-/

/-- GLSL `clamp(x, lo, hi) = min(max(x, lo), hi)`. -/
def clampQ (x lo hi : ℚ) : ℚ := min (max x lo) hi

/-- An RGBA color, each channel a rational (standing for a GLSL float). -/
structure Color where
  r : ℚ
  g : ℚ
  b : ℚ
  a : ℚ
deriving DecidableEq, Repr

/-- The uniforms of the postprocess program, as set in `main`
(lines 442–445 of `main3.py`): `uResolution`, `uStrength`, `uRadius`,
`uEHpx`.  The sampler `uScene` is modelled as a function argument. -/
structure PostUniforms where
  resX : ℚ
  resY : ℚ
  uStrength : ℚ
  uRadius : ℚ
  uEHpx : ℚ
deriving DecidableEq, Repr

/-- `minHalf = min(res.x, res.y) * 0.5` from `POST_FS`. -/
def minHalf (u : PostUniforms) : ℚ := min u.resX u.resY * (1/2)

/-- The warp magnitude computed by lines 180–186 of `POST_FS`:
`warp = 0.0`, then inside the influence radius
`t = 1.0 - dnorm/r; warp = uStrength * t * (1.0 / (dnorm + 0.02))`. -/
def warpAmount (uStrength uRadius dnorm : ℚ) : ℚ :=
  if dnorm < uRadius then
    uStrength * (1 - dnorm / uRadius) * (1 / (dnorm + 1/50))
  else 0

/-- The body of `POST_FS`'s `main` (lines 160–199 of `main3.py`).
`scene` is the `uScene` sampler, `uv = vUV`, `p = gl_FragCoord.xy - 0.5*res`,
and `d` is the value of `length(p)` (pixels from center), passed explicitly
since the square root is the one operation not represented in `ℚ`. -/
def postFS (u : PostUniforms) (scene : ℚ × ℚ → Color) (uv : ℚ × ℚ)
    (p : ℚ × ℚ) (d : ℚ) : Color :=
  let dnorm := d / minHalf u
  if d ≤ u.uEHpx then
    ⟨0, 0, 0, 1⟩
  else
    let dir : ℚ × ℚ := if d > 1/100000 then (p.1 / d, p.2 / d) else (0, 0)
    let warp := warpAmount u.uStrength u.uRadius dnorm
    let disp : ℚ × ℚ := (dir.1 * warp * (minHalf u / u.resX),
                         dir.2 * warp * (minHalf u / u.resY))
    let uv2 := (uv.1 + disp.1, uv.2 + disp.2)
    let col := scene uv2
    let vig := 1 - dnorm ^ 2 * (1/4)
    { r := col.r * clampQ vig (4/5) 1
    , g := col.g * clampQ vig (4/5) 1
    , b := col.b * clampQ vig (4/5) 1
    , a := col.a }

/-- The color produced when the sampled uv is the pixel's own uv and only
the vignette (clamped to `[0.8, 1.0]`) scales the rgb channels. -/
def vignettedSample (scene : ℚ × ℚ → Color) (uv : ℚ × ℚ) (dnorm : ℚ) : Color :=
  let col := scene uv
  let vig := 1 - dnorm ^ 2 * (1/4)
  { r := col.r * clampQ vig (4/5) 1
  , g := col.g * clampQ vig (4/5) 1
  , b := col.b * clampQ vig (4/5) 1
  , a := col.a }

/-! ## Event loop state machine (`main`, lines 356–410 of `main3.py`) -/

/-- The keys the event loop dispatches on (lines 366–381). `other` stands
for any key with no handler. -/
inductive Key
  | escape
  | q
  | r
  | g
  | l
  | plus
  | equals
  | minus
  | leftBracket
  | rightBracket
  | other
deriving DecidableEq, Repr

/-- The pygame events the loop dispatches on (lines 362–401).  Mouse
positions are rationals (pygame reports integer pixels; `ℚ` embeds them). -/
inductive Event
  | quit
  | keyDown (k : Key)
  | mouseButtonDown (button : ℕ) (px py : ℚ)
  | mouseButtonUp (button : ℕ)
  | mouseMotion (px py : ℚ)
  | videoResize (w h : ℕ)
deriving DecidableEq, Repr

/-- The GL calls issued while handling a resize (lines 407–410) and inside
`create_fbo_tex` (lines 90–112), abstracted to the resource-lifetime level. -/
inductive GLOp
  | deleteFramebuffer (id : ℕ)
  | deleteTexture (id : ℕ)
  | deleteRenderbuffer (id : ℕ)
  | genTexture (id : ℕ) (w h : ℕ)
  | genRenderbuffer (id : ℕ) (w h : ℕ)
  | genFramebuffer (id : ℕ)
deriving DecidableEq, Repr

/-- The offscreen target's three GL object names returned by
`create_fbo_tex` (fbo, tex, rbo). -/
structure Resources where
  fbo : ℕ
  scene_tex : ℕ
  rbo : ℕ
deriving DecidableEq, Repr

/-- `create_fbo_tex(w, h)`: allocates a texture, a renderbuffer and a
framebuffer (in that call order, lines 92–104), sized `w × h`.  GL object
names are modelled by a counter `nid`; returns the resources, the next
counter, and the trace of allocation calls. -/
def create_fbo_tex (nid : ℕ) (w h : ℕ) : Resources × ℕ × List GLOp :=
  let tex := nid
  let rbo := nid + 1
  let fbo := nid + 2
  (⟨fbo, tex, rbo⟩, nid + 3,
   [GLOp.genTexture tex w h, GLOp.genRenderbuffer rbo w h, GLOp.genFramebuffer fbo])

/-- All mutable state of `main`: window size, the camera / toggle / lens
globals (lines 41–52), the drag-tracking locals (lines 357–358), the
`running` flag, the offscreen target and its size, the GL name counter,
and the list of deleted GL names. -/
structure MainState where
  winW : ℕ
  winH : ℕ
  cam_dist : ℚ
  cam_yaw : ℚ
  cam_pitch : ℚ
  show_grid : Bool
  enable_lensing : Bool
  lens_strength : ℚ
  lens_radius : ℚ
  dragging : Bool
  last_mx : ℚ
  last_my : ℚ
  running : Bool
  res : Resources
  fboW : ℕ
  fboH : ℕ
  nextId : ℕ
  freed : List ℕ
deriving DecidableEq, Repr

/-- Python float `%` with a positive modulus (`(cam_yaw + dx*0.3) % 360.0`,
line 398): the representative in `[0, b)` for `b > 0`. -/
def pymod (a b : ℚ) : ℚ := a - b * ⌊a / b⌋

/-- One iteration of the event dispatch (`for e in pygame.event.get()`,
lines 362–410): the successor state and the GL calls issued (empty except
for `VIDEORESIZE`). -/
def processEvent (s : MainState) (e : Event) : MainState × List GLOp :=
  match e with
  | .quit => ({ s with running := false }, [])
  | .keyDown k =>
      if k = .escape ∨ k = .q then ({ s with running := false }, [])
      else if k = .r then
        ({ s with cam_dist := 18, cam_yaw := 35, cam_pitch := -15 }, [])
      else if k = .g then ({ s with show_grid := !s.show_grid }, [])
      else if k = .l then ({ s with enable_lensing := !s.enable_lensing }, [])
      else if k = .plus ∨ k = .equals then
        ({ s with lens_strength := min (3/4) (s.lens_strength + 1/50) }, [])
      else if k = .minus then
        ({ s with lens_strength := max (1/50) (s.lens_strength - 1/50) }, [])
      else if k = .leftBracket then
        ({ s with lens_radius := max (3/20) (s.lens_radius - 1/50) }, [])
      else if k = .rightBracket then
        ({ s with lens_radius := min (19/20) (s.lens_radius + 1/50) }, [])
      else (s, [])
  | .mouseButtonDown b px py =>
      if b = 1 then ({ s with dragging := true, last_mx := px, last_my := py }, [])
      else if b = 4 then ({ s with cam_dist := max (7/2) (s.cam_dist - 1) }, [])
      else if b = 5 then ({ s with cam_dist := min 80 (s.cam_dist + 1) }, [])
      else (s, [])
  | .mouseButtonUp b =>
      if b = 1 then ({ s with dragging := false }, []) else (s, [])
  | .mouseMotion px py =>
      if s.dragging then
        let dx := px - s.last_mx
        let dy := py - s.last_my
        ({ s with
            last_mx := px, last_my := py,
            cam_yaw := pymod (s.cam_yaw + dx * (3/10)) 360,
            cam_pitch := max (-85) (min 85 (s.cam_pitch + dy * (3/10))) }, [])
      else (s, [])
  | .videoResize w h =>
      let old := s.res
      let alloc := create_fbo_tex s.nextId w h
      ({ s with
          winW := w, winH := h,
          res := alloc.1, fboW := w, fboH := h, nextId := alloc.2.1,
          freed := s.freed ++ [old.fbo, old.scene_tex, old.rbo] },
       [GLOp.deleteFramebuffer old.fbo, GLOp.deleteTexture old.scene_tex,
        GLOp.deleteRenderbuffer old.rbo] ++ alloc.2.2)

/-- The state after processing a whole event batch in order. -/
def processEvents (s : MainState) (es : List Event) : MainState :=
  es.foldl (fun t e => (processEvent t e).1) s

/-- The state `main` reaches just before its loop: module-level globals
(lines 36–52), `dragging = False`, `last_mx = last_my = 0` (lines 357–358),
and the offscreen target from `create_fbo_tex(WIN_W, WIN_H)` (line 345).
GL name numbering starts at 1. -/
def initState : MainState :=
  let alloc := create_fbo_tex 1 1280 800
  { winW := 1280, winH := 800
  , cam_dist := 18, cam_yaw := 35, cam_pitch := -15
  , show_grid := true, enable_lensing := true
  , lens_strength := 4/25, lens_radius := 11/20
  , dragging := false, last_mx := 0, last_my := 0
  , running := true
  , res := alloc.1, fboW := 1280, fboH := 800, nextId := alloc.2.1
  , freed := [] }

/-- The value bound to the `uStrength` uniform each frame (line 443):
`lens_strength if enable_lensing else 0.0`. -/
def strengthUniform (s : MainState) : ℚ :=
  if s.enable_lensing then s.lens_strength else 0

/-! ## Orbit camera (`set_camera`, lines 257–265 of `main3.py`) -/

/-- `math.radians(deg) = deg * pi / 180`. -/
noncomputable def radiansOf (deg : ℝ) : ℝ := deg * (Real.pi / 180)

/-- The arguments `set_camera` passes to `gluLookAt`: eye position, look-at
center, up vector.  From the source: `yaw_r = radians(cam_yaw)`,
`pitch_r = radians(cam_pitch)`, `x = dist*cos(pitch_r)*sin(yaw_r)`,
`y = dist*sin(pitch_r)`, `z = dist*cos(pitch_r)*cos(yaw_r)`,
`gluLookAt(x, y, z, 0,0,0, 0,1,0)`. -/
noncomputable def set_camera (dist yaw pitch : ℝ) :
    (ℝ × ℝ × ℝ) × (ℝ × ℝ × ℝ) × (ℝ × ℝ × ℝ) :=
  let yaw_r := radiansOf yaw
  let pitch_r := radiansOf pitch
  let x := dist * Real.cos pitch_r * Real.sin yaw_r
  let y := dist * Real.sin pitch_r
  let z := dist * Real.cos pitch_r * Real.cos yaw_r
  ((x, y, z), (0, 0, 0), (0, 1, 0))

/-- Modelled from the spec's words (glossary, "Orbit camera"): the
spherical-to-Cartesian conversion at radian angles,
`x = dist*cos(pitch)*sin(yaw)`, `y = dist*sin(pitch)`,
`z = dist*cos(pitch)*cos(yaw)`.  Compared against `set_camera`. -/
noncomputable def sphericalToCartesian (dist yawRad pitchRad : ℝ) : ℝ × ℝ × ℝ :=
  (dist * Real.cos pitchRad * Real.sin yawRad,
   dist * Real.sin pitchRad,
   dist * Real.cos pitchRad * Real.cos yawRad)

/-! ## Shader compilation (`compile_shader` / `link_program`,
lines 65–88 of `main3.py`) -/

/-- An abstract GL driver as seen by `compile_shader` and `link_program`:
which sources compile, which pairs link, the returned object names, and
the info logs.  Success of `glGetShaderiv(·, GL_COMPILE_STATUS)` depends
on the source attached to the shader object. -/
structure GLApi where
  shaderIdOf : ℕ → String → ℕ
  compileOk : String → Bool
  shaderLog : String → String
  programIdOf : String → String → ℕ
  linkOk : String → String → Bool
  programLog : String → String → String

/-- `compile_shader(src, shader_type)`: creates a shader, compiles `src`,
and raises `RuntimeError` with message `"Shader compile error:\n" + log` when
`GL_COMPILE_STATUS` is false; otherwise returns the shader id.  Raising is
modelled by `Except.error` carrying the message. -/
def compile_shader (gl : GLApi) (src : String) (shader_type : ℕ) : Except String ℕ :=
  let sid := gl.shaderIdOf shader_type src
  if gl.compileOk src then .ok sid
  else .error ("Shader compile error:\n" ++ gl.shaderLog src)

/-- `GL_VERTEX_SHADER`. -/
def GL_VERTEX_SHADER : ℕ := 35633

/-- `GL_FRAGMENT_SHADER`. -/
def GL_FRAGMENT_SHADER : ℕ := 35632

/-- `link_program(vs_src, fs_src)`: compiles both shaders (each failure
propagates), links, and raises `RuntimeError` with message `"Program link error:\n" + log`
when `GL_LINK_STATUS` is false; otherwise returns the program id. -/
def link_program (gl : GLApi) (vs_src fs_src : String) : Except String ℕ := do
  let _vs ← compile_shader gl vs_src GL_VERTEX_SHADER
  let _fs ← compile_shader gl fs_src GL_FRAGMENT_SHADER
  let pid := gl.programIdOf vs_src fs_src
  if gl.linkOk vs_src fs_src then pure pid
  else .error ("Program link error:\n" ++ gl.programLog vs_src fs_src)

/-! ## Per-frame control flow (`main` loop body, lines 361–478) -/

/-- The five phases of a frame named by the spec: poll/process input,
scene pass into the FBO, postprocess pass to the screen, 2D overlay,
present. -/
inductive Phase
  | input
  | scene
  | post
  | overlay
  | present
deriving DecidableEq, Repr

/-- A linear order on phases matching their required order in a frame. -/
def Phase.rank : Phase → ℕ
  | .input => 0
  | .scene => 1
  | .post => 2
  | .overlay => 3
  | .present => 4

/-- The operations the loop body performs, in source order, abstracted to
one constructor per statement group. -/
inductive FrameOp
  | pollEventsOp
  | handleEventOp (e : Event)
  | bindSceneFBO
  | viewportScene
  | clearScene
  | perspectiveScene
  | cameraScene
  | drawGridOp
  | drawSceneObjectsOp
  | unbindFBO
  | viewportScreen
  | clearScreen
  | usePostProgram
  | setPostUniforms
  | drawFullscreenQuad
  | unusePostProgram
  | drawOverlay
  | flipOp
deriving DecidableEq, Repr

/-- Which phase each operation belongs to. -/
def FrameOp.phase : FrameOp → Phase
  | .pollEventsOp => .input
  | .handleEventOp _ => .input
  | .bindSceneFBO => .scene
  | .viewportScene => .scene
  | .clearScene => .scene
  | .perspectiveScene => .scene
  | .cameraScene => .scene
  | .drawGridOp => .scene
  | .drawSceneObjectsOp => .scene
  | .unbindFBO => .scene
  | .viewportScreen => .post
  | .clearScreen => .post
  | .usePostProgram => .post
  | .setPostUniforms => .post
  | .drawFullscreenQuad => .post
  | .unusePostProgram => .post
  | .drawOverlay => .overlay
  | .flipOp => .present

/-- The trace of one iteration of `while running` (lines 361–478): the
event poll and per-event dispatch, then sections 1 (scene into FBO),
2 (postprocess to screen), 3 (overlay), then `pygame.display.flip()`.
`draw_grid` is always called (it tests `show_grid` itself, line 268). -/
def frameOps (es : List Event) : List FrameOp :=
  FrameOp.pollEventsOp :: es.map FrameOp.handleEventOp ++
  [FrameOp.bindSceneFBO, FrameOp.viewportScene, FrameOp.clearScene,
   FrameOp.perspectiveScene, FrameOp.cameraScene, FrameOp.drawGridOp,
   FrameOp.drawSceneObjectsOp, FrameOp.unbindFBO,
   FrameOp.viewportScreen, FrameOp.clearScreen, FrameOp.usePostProgram,
   FrameOp.setPostUniforms, FrameOp.drawFullscreenQuad, FrameOp.unusePostProgram,
   FrameOp.drawOverlay,
   FrameOp.flipOp]

/-- One whole loop iteration: the state update from the polled events and
the trace of operations performed. -/
def frame (s : MainState) (es : List Event) : MainState × List FrameOp :=
  (processEvents s es, frameOps es)

/-! ## Theorems -/

/-- Concrete uniforms for witnesses: the initial 1280×800 window with the
initial lens parameters and the 70-pixel event horizon. -/
def exampleUniforms : PostUniforms := ⟨1280, 800, 4/25, 11/20, 70⟩

/-- A concrete scene sampler for witnesses. -/
def whiteScene : ℚ × ℚ → Color := fun _ => ⟨1, 1, 1, 1⟩

/-- Claim C1: for a pixel outside the event horizon, if
`dnorm = d / minHalf < r` then the warp magnitude equals
`strength * (1 - dnorm/r) / (dnorm + 0.02)`, and if `dnorm ≥ r` the warp
magnitude is 0 and no displacement is applied: the output is the scene
sampled at the pixel's own uv, scaled only by the vignette. -/
theorem claim_C1_warp_formula (u : PostUniforms) (scene : ℚ × ℚ → Color)
    (uv p : ℚ × ℚ) (d : ℚ) (hEH : u.uEHpx < d) :
    (d / minHalf u < u.uRadius →
      warpAmount u.uStrength u.uRadius (d / minHalf u)
        = u.uStrength * (1 - (d / minHalf u) / u.uRadius) / (d / minHalf u + 1/50)) ∧
    (u.uRadius ≤ d / minHalf u →
      warpAmount u.uStrength u.uRadius (d / minHalf u) = 0 ∧
      postFS u scene uv p d = vignettedSample scene uv (d / minHalf u)) := by
  constructor
  · intro h
    simp only [warpAmount, if_pos h, mul_one_div]
  · intro h
    have hw : warpAmount u.uStrength u.uRadius (d / minHalf u) = 0 := by
      simp only [warpAmount, if_neg (not_lt.mpr h)]
    refine ⟨hw, ?_⟩
    simp only [postFS, vignettedSample, hw, if_neg (not_le.mpr hEH),
      mul_zero, zero_mul, add_zero]

/-- Witness for C1 at the initial uniforms, pixel `p = (100, 0)`,
`d = 100 > 70`. -/
theorem claim_C1_witness :
    (((100 : ℚ) / minHalf exampleUniforms < exampleUniforms.uRadius →
      warpAmount exampleUniforms.uStrength exampleUniforms.uRadius
          ((100 : ℚ) / minHalf exampleUniforms)
        = exampleUniforms.uStrength *
            (1 - ((100 : ℚ) / minHalf exampleUniforms) / exampleUniforms.uRadius) /
            ((100 : ℚ) / minHalf exampleUniforms + 1/50)) ∧
    (exampleUniforms.uRadius ≤ (100 : ℚ) / minHalf exampleUniforms →
      warpAmount exampleUniforms.uStrength exampleUniforms.uRadius
          ((100 : ℚ) / minHalf exampleUniforms) = 0 ∧
      postFS exampleUniforms whiteScene (1/2, 1/2) (100, 0) 100
        = vignettedSample whiteScene (1/2, 1/2) ((100 : ℚ) / minHalf exampleUniforms))) :=
  claim_C1_warp_formula exampleUniforms whiteScene (1/2, 1/2) (100, 0) 100
    (by norm_num [exampleUniforms])

/-- Claim C2: a pixel with `d ≤ uEHpx` is output as pure black
`(0,0,0,1)`; the output does not depend on the scene texture, the uv, the
pixel offset, or the strength/radius uniforms (the shader returns before
sampling, warping, or applying the vignette). -/
theorem claim_C2_event_horizon_black (u : PostUniforms)
    (scene scene' : ℚ × ℚ → Color) (uv uv' p p' : ℚ × ℚ) (d : ℚ)
    (h : d ≤ u.uEHpx) :
    postFS u scene uv p d = ⟨0, 0, 0, 1⟩ ∧
    postFS u scene uv p d = postFS u scene' uv' p' d ∧
    (∀ s' r' : ℚ, postFS ⟨u.resX, u.resY, s', r', u.uEHpx⟩ scene uv p d
        = ⟨0, 0, 0, 1⟩) := by
  refine ⟨?_, ?_, ?_⟩
  · simp [postFS, h]
  · simp [postFS, h]
  · intro s' r'
    simp [postFS, h]

/-- Witness for C2 at `d = 50 ≤ 70`. -/
theorem claim_C2_witness :
    postFS exampleUniforms whiteScene (1/2, 1/2) (50, 0) 50 = ⟨0, 0, 0, 1⟩ ∧
    postFS exampleUniforms whiteScene (1/2, 1/2) (50, 0) 50
      = postFS exampleUniforms (fun _ => ⟨1, 0, 0, 1⟩) (0, 0) (0, 50) 50 ∧
    (∀ s' r' : ℚ,
      postFS ⟨exampleUniforms.resX, exampleUniforms.resY, s', r', exampleUniforms.uEHpx⟩
          whiteScene (1/2, 1/2) (50, 0) 50 = ⟨0, 0, 0, 1⟩) :=
  claim_C2_event_horizon_black exampleUniforms whiteScene (fun _ => ⟨1, 0, 0, 1⟩)
    (1/2, 1/2) (0, 0) (50, 0) (0, 50) 50 (by norm_num [exampleUniforms])

/-- Claim C10: with lensing disabled the `uStrength` uniform is exactly 0;
then every pixel outside the event horizon gets zero displacement, so the
scene is sampled at the pixel's own uv and only the clamped vignette scales
the color, while pixels with `d ≤ uEHpx` are still pure black. -/
theorem claim_C10_lensing_disabled (s : MainState) (hs : s.enable_lensing = false)
    (u : PostUniforms) (scene : ℚ × ℚ → Color) (uv p : ℚ × ℚ) (d : ℚ)
    (hu : u.uStrength = strengthUniform s) :
    u.uStrength = 0 ∧
    (u.uEHpx < d → postFS u scene uv p d = vignettedSample scene uv (d / minHalf u)) ∧
    (d ≤ u.uEHpx → postFS u scene uv p d = ⟨0, 0, 0, 1⟩) := by
  have h0 : u.uStrength = 0 := by
    rw [hu]; simp [strengthUniform, hs]
  refine ⟨h0, ?_, ?_⟩
  · intro hd
    have hw : ∀ x : ℚ, warpAmount u.uStrength u.uRadius x = 0 := by
      intro x; simp [warpAmount, h0]
    simp only [postFS, vignettedSample, hw, if_neg (not_le.mpr hd),
      mul_zero, zero_mul, add_zero]
  · intro hd
    simp [postFS, hd]

/-- Witness for C10: lensing toggled off from the initial state,
evaluated at a pixel outside the horizon. -/
theorem claim_C10_witness :
    (0 : ℚ) = 0 ∧
    ((70 : ℚ) < 100 →
      postFS ⟨1280, 800, 0, 11/20, 70⟩ whiteScene (1/2, 1/2) (100, 0) 100
        = vignettedSample whiteScene (1/2, 1/2)
            ((100 : ℚ) / minHalf ⟨1280, 800, 0, 11/20, 70⟩)) ∧
    ((100 : ℚ) ≤ 70 →
      postFS ⟨1280, 800, 0, 11/20, 70⟩ whiteScene (1/2, 1/2) (100, 0) 100
        = ⟨0, 0, 0, 1⟩) :=
  claim_C10_lensing_disabled { initState with enable_lensing := false } rfl
    ⟨1280, 800, 0, 11/20, 70⟩ whiteScene (1/2, 1/2) (100, 0) 100
    (by simp [strengthUniform])

/-- The camera bounds of claim C3: pitch in `[-85, 85]`, distance in
`[3.5, 80]`. -/
def camInv (s : MainState) : Prop :=
  -85 ≤ s.cam_pitch ∧ s.cam_pitch ≤ 85 ∧ 7/2 ≤ s.cam_dist ∧ s.cam_dist ≤ 80

lemma camInv_step (s : MainState) (e : Event) (h : camInv s) :
    camInv (processEvent s e).1 := by
  obtain ⟨h1, h2, h3, h4⟩ := h
  cases e with
  | quit => exact ⟨h1, h2, h3, h4⟩
  | keyDown k =>
      simp only [processEvent]
      split_ifs <;>
        first
          | exact ⟨h1, h2, h3, h4⟩
          | exact ⟨by norm_num, by norm_num, by norm_num, by norm_num⟩
  | mouseButtonDown b px py =>
      simp only [processEvent]
      split_ifs
      · exact ⟨h1, h2, h3, h4⟩
      · exact ⟨h1, h2, le_max_left _ _, max_le (by norm_num) (by linarith)⟩
      · exact ⟨h1, h2, le_min (by norm_num) (by linarith), min_le_left _ _⟩
      · exact ⟨h1, h2, h3, h4⟩
  | mouseButtonUp b =>
      simp only [processEvent]
      split_ifs
      · exact ⟨h1, h2, h3, h4⟩
      · exact ⟨h1, h2, h3, h4⟩
  | mouseMotion px py =>
      simp only [processEvent]
      split_ifs
      · exact ⟨le_max_left _ _,
          max_le (by norm_num) (min_le_left _ _), h3, h4⟩
      · exact ⟨h1, h2, h3, h4⟩
  | videoResize w h' => exact ⟨h1, h2, h3, h4⟩

lemma camInv_processEvents (es : List Event) :
    ∀ s : MainState, camInv s → camInv (processEvents s es) := by
  induction es with
  | nil => intro s hs; exact hs
  | cons e t ih => intro s hs; exact ih _ (camInv_step s e hs)

/-- Claim C3: from the initial camera state, every sequence of input
events leaves `cam_pitch ∈ [-85, 85]` and `cam_dist ∈ [3.5, 80]`. -/
theorem claim_C3_camera_bounds (es : List Event) :
    -85 ≤ (processEvents initState es).cam_pitch ∧
    (processEvents initState es).cam_pitch ≤ 85 ∧
    7/2 ≤ (processEvents initState es).cam_dist ∧
    (processEvents initState es).cam_dist ≤ 80 :=
  camInv_processEvents es initState (by norm_num [camInv, initState])

/-- The lens-parameter bounds of claim C4: strength in `[0.02, 0.75]`,
radius in `[0.15, 0.95]`. -/
def lensInv (s : MainState) : Prop :=
  1/50 ≤ s.lens_strength ∧ s.lens_strength ≤ 3/4 ∧
  3/20 ≤ s.lens_radius ∧ s.lens_radius ≤ 19/20

lemma lensInv_step (s : MainState) (e : Event) (h : lensInv s) :
    lensInv (processEvent s e).1 := by
  obtain ⟨h1, h2, h3, h4⟩ := h
  cases e with
  | quit => exact ⟨h1, h2, h3, h4⟩
  | keyDown k =>
      simp only [processEvent]
      split_ifs
      · exact ⟨h1, h2, h3, h4⟩
      · exact ⟨h1, h2, h3, h4⟩
      · exact ⟨h1, h2, h3, h4⟩
      · exact ⟨h1, h2, h3, h4⟩
      · exact ⟨le_min (by norm_num) (by linarith), min_le_left _ _, h3, h4⟩
      · exact ⟨le_max_left _ _, max_le (by norm_num) (by linarith), h3, h4⟩
      · exact ⟨h1, h2, le_max_left _ _, max_le (by norm_num) (by linarith)⟩
      · exact ⟨h1, h2, le_min (by norm_num) (by linarith), min_le_left _ _⟩
      · exact ⟨h1, h2, h3, h4⟩
  | mouseButtonDown b px py =>
      simp only [processEvent]
      split_ifs
      · exact ⟨h1, h2, h3, h4⟩
      · exact ⟨h1, h2, h3, h4⟩
      · exact ⟨h1, h2, h3, h4⟩
      · exact ⟨h1, h2, h3, h4⟩
  | mouseButtonUp b =>
      simp only [processEvent]
      split_ifs
      · exact ⟨h1, h2, h3, h4⟩
      · exact ⟨h1, h2, h3, h4⟩
  | mouseMotion px py =>
      simp only [processEvent]
      split_ifs
      · exact ⟨h1, h2, h3, h4⟩
      · exact ⟨h1, h2, h3, h4⟩
  | videoResize w h' => exact ⟨h1, h2, h3, h4⟩

lemma lensInv_processEvents (es : List Event) :
    ∀ s : MainState, lensInv s → lensInv (processEvents s es) := by
  induction es with
  | nil => intro s hs; exact hs
  | cons e t ih => intro s hs; exact ih _ (lensInv_step s e hs)

/-- Claim C4: from the initial lens parameters, every sequence of input
events leaves `lens_strength ∈ [0.02, 0.75]` and
`lens_radius ∈ [0.15, 0.95]`. -/
theorem claim_C4_lens_bounds (es : List Event) :
    1/50 ≤ (processEvents initState es).lens_strength ∧
    (processEvents initState es).lens_strength ≤ 3/4 ∧
    3/20 ≤ (processEvents initState es).lens_radius ∧
    (processEvents initState es).lens_radius ≤ 19/20 :=
  lensInv_processEvents es initState (by norm_num [lensInv, initState])

/-- Claim C5: for every camera state, `set_camera` passes `gluLookAt` the
eye obtained by spherical-to-Cartesian conversion of (distance, yaw, pitch)
with the angles converted to radians, the look-at point `(0,0,0)` and the
up vector `(0,1,0)`. -/
theorem claim_C5_orbit_camera (dist yaw pitch : ℝ) :
    set_camera dist yaw pitch
      = (sphericalToCartesian dist (radiansOf yaw) (radiansOf pitch),
         (0, 0, 0), (0, 1, 0)) := rfl

/-- The offscreen target always matches the window size. -/
def fboSizeInv (s : MainState) : Prop := s.fboW = s.winW ∧ s.fboH = s.winH

lemma fboSizeInv_step (s : MainState) (e : Event) (h : fboSizeInv s) :
    fboSizeInv (processEvent s e).1 := by
  obtain ⟨h1, h2⟩ := h
  cases e with
  | quit => exact ⟨h1, h2⟩
  | keyDown k =>
      simp only [processEvent]
      split_ifs <;> exact ⟨h1, h2⟩
  | mouseButtonDown b px py =>
      simp only [processEvent]
      split_ifs <;> exact ⟨h1, h2⟩
  | mouseButtonUp b =>
      simp only [processEvent]
      split_ifs <;> exact ⟨h1, h2⟩
  | mouseMotion px py =>
      simp only [processEvent]
      split_ifs <;> exact ⟨h1, h2⟩
  | videoResize w h' => exact ⟨rfl, rfl⟩

lemma fboSizeInv_processEvents (es : List Event) :
    ∀ s : MainState, fboSizeInv s → fboSizeInv (processEvents s es) := by
  induction es with
  | nil => intro s hs; exact hs
  | cons e t ih => intro s hs; exact ih _ (fboSizeInv_step s e hs)

/-- Claim C6: in every reachable state the offscreen target's size equals
the window size, and handling `VIDEORESIZE w h` issues exactly the deletes
of the previous framebuffer, texture and renderbuffer followed by the
allocations of the replacements at the new size, records the old names as
freed, and installs a fresh `w × h` target. -/
theorem claim_C6_resize_lifecycle :
    (∀ es : List Event,
      (processEvents initState es).fboW = (processEvents initState es).winW ∧
      (processEvents initState es).fboH = (processEvents initState es).winH) ∧
    (∀ (s : MainState) (w h : ℕ),
      (processEvent s (Event.videoResize w h)).2
        = [GLOp.deleteFramebuffer s.res.fbo, GLOp.deleteTexture s.res.scene_tex,
           GLOp.deleteRenderbuffer s.res.rbo,
           GLOp.genTexture s.nextId w h, GLOp.genRenderbuffer (s.nextId + 1) w h,
           GLOp.genFramebuffer (s.nextId + 2)] ∧
      (processEvent s (Event.videoResize w h)).1.fboW = w ∧
      (processEvent s (Event.videoResize w h)).1.fboH = h ∧
      (processEvent s (Event.videoResize w h)).1.winW = w ∧
      (processEvent s (Event.videoResize w h)).1.winH = h ∧
      (processEvent s (Event.videoResize w h)).1.res
        = ⟨s.nextId + 2, s.nextId, s.nextId + 1⟩ ∧
      (processEvent s (Event.videoResize w h)).1.freed
        = s.freed ++ [s.res.fbo, s.res.scene_tex, s.res.rbo]) := by
  constructor
  · intro es
    exact fboSizeInv_processEvents es initState ⟨rfl, rfl⟩
  · intro s w h
    exact ⟨rfl, rfl, rfl, rfl, rfl, rfl, rfl⟩

/-- Claim C7: a failed `GL_COMPILE_STATUS` makes `compile_shader` raise
with the shader info log, a failed `GL_LINK_STATUS` makes `link_program`
raise with the program info log, and when compilation and linking succeed
the shader id / program id is returned without error. -/
theorem claim_C7_shader_error_handling (gl : GLApi) (src vs fs : String) (ty : ℕ) :
    (gl.compileOk src = false →
      compile_shader gl src ty
        = .error ("Shader compile error:\n" ++ gl.shaderLog src)) ∧
    (gl.compileOk src = true →
      compile_shader gl src ty = .ok (gl.shaderIdOf ty src)) ∧
    (gl.compileOk vs = true → gl.compileOk fs = true → gl.linkOk vs fs = false →
      link_program gl vs fs
        = .error ("Program link error:\n" ++ gl.programLog vs fs)) ∧
    (gl.compileOk vs = true → gl.compileOk fs = true → gl.linkOk vs fs = true →
      link_program gl vs fs = .ok (gl.programIdOf vs fs)) := by
  refine ⟨?_, ?_, ?_, ?_⟩
  · intro h; simp [compile_shader, h]
  · intro h; simp [compile_shader, h]
  · intro h1 h2 h3
    simp only [link_program, compile_shader, h1, h2, h3, if_true, if_false,
      Bool.false_eq_true, if_neg]
    rfl
  · intro h1 h2 h3
    simp only [link_program, compile_shader, h1, h2, h3, if_true, if_false]
    rfl

/-- A concrete GL driver for the C7 witness: source `"bad"` fails to
compile, a program whose vertex source is `"nolink"` fails to link,
everything else succeeds. -/
def exampleGL : GLApi :=
  { shaderIdOf := fun _ _ => 7
  , compileOk := fun s => s != "bad"
  , shaderLog := fun _ => "0:1(1): error"
  , programIdOf := fun _ _ => 9
  , linkOk := fun v _ => v != "nolink"
  , programLog := fun _ _ => "no vertex stage" }

/-- Witness for C7 on `exampleGL`, exercising all four cases. -/
theorem claim_C7_witness :
    compile_shader exampleGL "bad" GL_VERTEX_SHADER
      = .error ("Shader compile error:\n" ++ exampleGL.shaderLog "bad") ∧
    compile_shader exampleGL "ok" GL_VERTEX_SHADER
      = .ok (exampleGL.shaderIdOf GL_VERTEX_SHADER "ok") ∧
    link_program exampleGL "nolink" "ok"
      = .error ("Program link error:\n" ++ exampleGL.programLog "nolink" "ok") ∧
    link_program exampleGL "ok" "ok2" = .ok (exampleGL.programIdOf "ok" "ok2") :=
  ⟨(claim_C7_shader_error_handling exampleGL "bad" "x" "y" GL_VERTEX_SHADER).1
      (by decide),
   (claim_C7_shader_error_handling exampleGL "ok" "x" "y" GL_VERTEX_SHADER).2.1
      (by decide),
   (claim_C7_shader_error_handling exampleGL "z" "nolink" "ok" 0).2.2.1
      (by decide) (by decide) (by decide),
   (claim_C7_shader_error_handling exampleGL "z" "ok" "ok2" 0).2.2.2
      (by decide) (by decide) (by decide)⟩

lemma pairwise_of_total {α : Type} {r : α → α → Prop} (hr : ∀ a b, r a b) :
    ∀ l : List α, List.Pairwise r l
  | [] => List.Pairwise.nil
  | a :: l => List.Pairwise.cons (fun b _ => hr a b) (pairwise_of_total hr l)

/-- Claim C8: in every frame the operation trace visits the phases
input → scene pass → postprocess pass → overlay → present in
non-decreasing order, and no phase is skipped. -/
theorem claim_C8_frame_phase_order (s : MainState) (es : List Event) :
    ((frame s es).2.map FrameOp.phase).Sorted (fun p q => p.rank ≤ q.rank) ∧
    (∀ ph : Phase, ph ∈ (frame s es).2.map FrameOp.phase) := by
  have hmap : (frame s es).2.map FrameOp.phase
      = Phase.input :: ((es.map fun _ => Phase.input) ++
        [Phase.scene, Phase.scene, Phase.scene, Phase.scene, Phase.scene,
         Phase.scene, Phase.scene, Phase.scene,
         Phase.post, Phase.post, Phase.post, Phase.post, Phase.post, Phase.post,
         Phase.overlay, Phase.present]) := by
    simp only [frame, frameOps, List.map_cons, List.map_append, List.map_map]
    rfl
  rw [hmap]
  constructor
  · refine List.sorted_cons.mpr ⟨fun b _ => Nat.zero_le _, ?_⟩
    refine List.pairwise_append.mpr ⟨?_, by decide, ?_⟩
    · exact List.pairwise_map.mpr (pairwise_of_total (fun _ _ => le_refl _) es)
    · intro x hx y hy
      obtain ⟨a, _, rfl⟩ := List.mem_map.mp hx
      exact Nat.zero_le _
  · intro ph
    cases ph with
    | input => exact List.mem_cons_self _ _
    | scene =>
        exact List.mem_cons.mpr (Or.inr (List.mem_append.mpr (Or.inr (by decide))))
    | post =>
        exact List.mem_cons.mpr (Or.inr (List.mem_append.mpr (Or.inr (by decide))))
    | overlay =>
        exact List.mem_cons.mpr (Or.inr (List.mem_append.mpr (Or.inr (by decide))))
    | present =>
        exact List.mem_cons.mpr (Or.inr (List.mem_append.mpr (Or.inr (by decide))))

/-- The events claim C9 ranges over: keyboard and mouse events (excluding
window-system `QUIT` and `VIDEORESIZE`). -/
def isInputEvent : Event → Bool
  | .keyDown _ => true
  | .mouseButtonDown _ _ _ => true
  | .mouseButtonUp _ => true
  | .mouseMotion _ _ => true
  | .quit => false
  | .videoResize _ _ => false

/-- All program state outside the six scalars named by claim C9 (camera
yaw/pitch/distance, lensing flag, lens strength, lens radius). -/
def nonLensCamFields (s : MainState) :
    ℕ × ℕ × Bool × Bool × ℚ × ℚ × Bool × Resources × ℕ × ℕ × ℕ × List ℕ :=
  (s.winW, s.winH, s.show_grid, s.dragging, s.last_mx, s.last_my, s.running,
   s.res, s.fboW, s.fboH, s.nextId, s.freed)

/-- Counterexample to claim C9 as stated: the keyboard event `G` mutates
`show_grid`, which is not among the six scalars the claim allows. -/
theorem claim_C9_counterexample :
    isInputEvent (Event.keyDown Key.g) = true ∧
    nonLensCamFields (processEvent initState (Event.keyDown Key.g)).1
      ≠ nonLensCamFields initState := by
  refine ⟨rfl, fun heq => ?_⟩
  have h2 : (processEvent initState (Event.keyDown Key.g)).1.show_grid
      = initState.show_grid :=
    congrArg (fun t => t.2.2.1) heq
  exact absurd h2 (by decide)

/-- Claim C9 (amended): a keyboard or mouse event may additionally mutate
`show_grid` (key G), the drag-tracking state `dragging`/`last_mx`/`last_my`
(mouse press, release, motion) and the `running` flag (ESC / Q); all
remaining state — window size, the offscreen target, its size, the GL name
counter and the freed list — is unchanged, and no GL call is issued. -/
theorem claim_C9_input_mutation (s : MainState) (e : Event)
    (h : isInputEvent e = true) :
    (processEvent s e).1.winW = s.winW ∧
    (processEvent s e).1.winH = s.winH ∧
    (processEvent s e).1.res = s.res ∧
    (processEvent s e).1.fboW = s.fboW ∧
    (processEvent s e).1.fboH = s.fboH ∧
    (processEvent s e).1.nextId = s.nextId ∧
    (processEvent s e).1.freed = s.freed ∧
    (processEvent s e).2 = [] := by
  cases e with
  | quit => simp [isInputEvent] at h
  | videoResize w h' => simp [isInputEvent] at h
  | keyDown k =>
      simp only [processEvent]
      split_ifs <;> exact ⟨rfl, rfl, rfl, rfl, rfl, rfl, rfl, rfl⟩
  | mouseButtonDown b px py =>
      simp only [processEvent]
      split_ifs <;> exact ⟨rfl, rfl, rfl, rfl, rfl, rfl, rfl, rfl⟩
  | mouseButtonUp b =>
      simp only [processEvent]
      split_ifs <;> exact ⟨rfl, rfl, rfl, rfl, rfl, rfl, rfl, rfl⟩
  | mouseMotion px py =>
      simp only [processEvent]
      split_ifs <;> exact ⟨rfl, rfl, rfl, rfl, rfl, rfl, rfl, rfl⟩

/-- Witness for the amended C9 at the `G` key on the initial state. -/
theorem claim_C9_witness :
    (processEvent initState (Event.keyDown Key.g)).1.winW = initState.winW ∧
    (processEvent initState (Event.keyDown Key.g)).1.winH = initState.winH ∧
    (processEvent initState (Event.keyDown Key.g)).1.res = initState.res ∧
    (processEvent initState (Event.keyDown Key.g)).1.fboW = initState.fboW ∧
    (processEvent initState (Event.keyDown Key.g)).1.fboH = initState.fboH ∧
    (processEvent initState (Event.keyDown Key.g)).1.nextId = initState.nextId ∧
    (processEvent initState (Event.keyDown Key.g)).1.freed = initState.freed ∧
    (processEvent initState (Event.keyDown Key.g)).2 = [] :=
  claim_C9_input_mutation initState (Event.keyDown Key.g) rfl
